import Mathlib

/-!
Shallow embedding of the conversation-history subsystem of the chatGPT discord
bot (src/src/message_history.py, src/src/bot.py, src/src/openai_client.py).

Python strings are modelled as Lean `String` (or `List Char` where character
level slicing matters), Python ints as `Int`, the Redis key-value backend as a
function from keys to optional stored JSON values, and Python exceptions as
explicit error results.  Async calls that the claims depend on (username
resolution, the completion API) are modelled as total functions / oracles.
-/

namespace ChatBot

/-- src/src/openai_client.py line 6: the maximum prompt length constant. -/
def MAX_PROMPT_LENGTH : Nat := 4096

/-- src/src/bot.py line 14: the maximum outbound Discord message length. -/
def MAX_DISCORD_MSG_LENGTH : Nat := 2000

/-- src/src/message_history.py `HistoryMessage`: one message sent by one user. -/
structure HistoryMessage where
  author_id : Int
  body : String
deriving DecidableEq

/-- src/src/message_history.py `UsernamesMapper.get_username`, modelled as a
total function from user ids to usernames (resolution assumed to succeed;
the `NullUsernamesMapper` variant is `fun _ => ""`). -/
abbrev UsernamesMapper := Int → String

/-- src/src/message_history.py lines 43-50 `HistoryMessage.as_transcript_str`:
renders a message as `<username>: <body>`. -/
def as_transcript_str (mapper : UsernamesMapper) (m : HistoryMessage) : String :=
  mapper m.author_id ++ ": " ++ m.body

/-- src/src/message_history.py `ConversationHistory`: the owner id together
with the ordered message list (oldest first). -/
structure ConversationHistory where
  interacting_user_id : Int
  messages : List HistoryMessage
deriving DecidableEq

/-- src/src/message_history.py lines 137-151 `as_transcript_lines`: the list of
rendered lines together with the running total of their lengths.  The Python
loop sums `len(line)` for each line; newline separators are NOT counted. -/
def as_transcript_lines (mapper : UsernamesMapper) (msgs : List HistoryMessage) :
    List String × Nat :=
  (msgs.map (as_transcript_str mapper),
   (msgs.map (fun m => (as_transcript_str mapper m).length)).sum)

/-- src/src/bot.py line 252: the newline-joined rendered transcript,
`"\n".join(lines)` — the string actually sent to the completion client, and the
transcript measure used by the specification (its glossary defines the
transcript as the newline-joined rendered lines). -/
def transcriptJoined (mapper : UsernamesMapper) (msgs : List HistoryMessage) : String :=
  String.intercalate "\n" (as_transcript_lines mapper msgs).1

/-- Result of running `trim`.  `ok` is normal completion; `typeError` models the
Python `TypeError` raised at src/src/message_history.py line 163, where
`len(removed_msg.as_transcript_str(self._usernames_mapper))` applies `len` to an
un-awaited coroutine object.  The `pop(0)` on line 162 has already executed when
the exception is raised, so the carried message list has lost its head. -/
inductive TrimResult
  | ok (messages : List HistoryMessage)
  | typeError (messagesAfterPop : List HistoryMessage)
deriving DecidableEq

/-- src/src/message_history.py lines 153-163 `trim`: computes the transcript
total, then loops while the total exceeds `max_characters`.  The first loop
iteration pops the oldest message and then raises `TypeError` (see
`TrimResult.typeError`), so the loop body never completes even once. -/
def trim (mapper : UsernamesMapper) (msgs : List HistoryMessage)
    (maxCharacters : Nat) : TrimResult :=
  if (as_transcript_lines mapper msgs).2 > maxCharacters then
    .typeError (msgs.drop 1)
  else
    .ok msgs

/-! ### The key-value backend and (de)serialization

`save` runs `json.dumps(self._conversation_history.dict())` and stores the
string; `get` runs `json.loads` and `ConversationHistory(**parsed_json)`.  The
JSON text transport is modelled at the level of parsed JSON values. -/

/-- A JSON value, as produced by `json.dumps`/`json.loads`. -/
inductive JVal
  | jnum (n : Int)
  | jstr (s : String)
  | jarr (items : List JVal)
  | jobj (fields : List (String × JVal))

/-- Pydantic `.dict()` of a `HistoryMessage`. -/
def encodeMessage (m : HistoryMessage) : JVal :=
  .jobj [("author_id", .jnum m.author_id), ("body", .jstr m.body)]

/-- Pydantic `.dict()` of a `ConversationHistory`. -/
def encodeHistory (h : ConversationHistory) : JVal :=
  .jobj [("interacting_user_id", .jnum h.interacting_user_id),
         ("messages", .jarr (h.messages.map encodeMessage))]

/-- Field lookup in a JSON object. -/
def jlookup (fields : List (String × JVal)) (k : String) : Option JVal :=
  match fields with
  | [] => none
  | (k2, v) :: rest => if k2 = k then some v else jlookup rest k

/-- Pydantic validation of one message entry (`HistoryMessage(**entry)`). -/
def decodeMessage : JVal → Option HistoryMessage
  | .jobj fields =>
    match jlookup fields "author_id", jlookup fields "body" with
    | some (.jnum n), some (.jstr s) => some ⟨n, s⟩
    | _, _ => none
  | _ => none

/-- Pydantic validation of each entry of the `messages` list in order. -/
def decodeAll : List JVal → Option (List HistoryMessage)
  | [] => some []
  | v :: rest =>
    match decodeMessage v, decodeAll rest with
    | some m, some ms => some (m :: ms)
    | _, _ => none

/-- Pydantic validation `ConversationHistory(**parsed_json)`. -/
def decodeHistory : JVal → Option ConversationHistory
  | .jobj fields =>
    match jlookup fields "interacting_user_id", jlookup fields "messages" with
    | some (.jnum n), some (.jarr items) =>
      match decodeAll items with
      | some msgs => some ⟨n, msgs⟩
      | none => none
    | _, _ => none
  | _ => none

/-- The Redis backend: a map from key strings to stored (parsed) JSON values. -/
abbrev Store := String → Option JVal

/-- src/src/message_history.py lines 180-187 `get_redis_key`. -/
def get_redis_key (interacting_user_id : Int) : String :=
  "conversation-history:interacting-user-id:" ++ toString interacting_user_id

/-- Result of `ConversationHistoryRepo.get`: either a history object, or the
exception raised by `json.loads` / pydantic validation on a malformed stored
value (there is no NotFound outcome in the code). -/
inductive GetResult
  | ok (h : ConversationHistory)
  | parseError
deriving DecidableEq

/-- src/src/message_history.py lines 189-219 `ConversationHistoryRepo.get`:
a missing key yields a fresh empty history for the requested user id; a present
key is parsed and validated. -/
def repoGet (st : Store) (interacting_user_id : Int) : GetResult :=
  match st (get_redis_key interacting_user_id) with
  | none => .ok ⟨interacting_user_id, []⟩
  | some v =>
    match decodeHistory v with
    | some h => .ok h
    | none => .parseError

/-- Overwrite one key of the backend. -/
def storeSet (st : Store) (k : String) (v : JVal) : Store :=
  fun k2 => if k2 = k then some v else st k2

/-- src/src/message_history.py lines 124-129 `ConversationHistoryRepoObject.save`:
serializes the full history and overwrites the backend entry at the object's
redis key (the key derived at `get` time). -/
def save (st : Store) (redisKey : String) (h : ConversationHistory) : Store :=
  storeSet st redisKey (encodeHistory h)

/-! ### Message chunking (src/src/bot.py lines 140-176 `batch_response`)

Modelled over `List Char` so that Python string slicing is explicit.  The
character-split inner `while` loop can fail to terminate (see `pyStrEqInt`), so
it is given explicit fuel and returns `none` when the fuel runs out. -/

/-- Python `in_msg.split(" ")`: splits on every single space, keeping empty
pieces (so `"".split(" ") == [""]` and `"a ".split(" ") == ["a", ""]`). -/
def splitOnSpace : List Char → List (List Char)
  | [] => [[]]
  | c :: rest =>
    if c = ' ' then [] :: splitOnSpace rest
    else
      match splitOnSpace rest with
      | w :: ws => (c :: w) :: ws
      | [] => [[c]]

/-- Python slice `s[:r]` (a negative `r` counts from the end, clamped at 0). -/
def pyTake (l : List Char) (r : Int) : List Char :=
  if r < 0 then l.take (l.length - r.natAbs) else l.take r.toNat

/-- Python slice `s[r:]` (a negative `r` counts from the end, clamped at 0). -/
def pyDrop (l : List Char) (r : Int) : List Char :=
  if r < 0 then l.drop (l.length - r.natAbs) else l.drop r.toNat

/-- src/src/bot.py line 162 `current_batch == batch_size`: a Python `==`
between a `str` and an `int`, which is always `False`. -/
def pyStrEqInt (_s : List Char) (_n : Nat) : Bool := false

/-- src/src/bot.py lines 156-164: the character-split `while len(word) > 0`
loop, with explicit fuel (`none` = the fuel ran out before the loop exited). -/
def charSplitLoop (batchSize : Nat) :
    Nat → List Char → List Char → List (List Char) →
    Option (List Char × List (List Char))
  | 0, _, _, _ => none
  | fuel2 + 1, word, currentBatch, batches =>
    if word.length > 0 then
      let remainingBatchSize : Int := (batchSize : Int) - currentBatch.length
      let currentBatch2 := currentBatch ++ pyTake word remainingBatchSize
      let word2 := pyDrop word remainingBatchSize
      if pyStrEqInt currentBatch2 batchSize then
        charSplitLoop batchSize fuel2 word2 [] (batches ++ [currentBatch2])
      else
        charSplitLoop batchSize fuel2 word2 currentBatch2 batches
    else
      some (currentBatch, batches)

/-- src/src/bot.py lines 150-171: the `for word in in_msg.split(" ")` loop. -/
def wordLoop (batchSize fuel : Nat) :
    List (List Char) → List Char → List (List Char) →
    Option (List Char × List (List Char))
  | [], currentBatch, batches => some (currentBatch, batches)
  | w :: ws, currentBatch, batches =>
    let word := w ++ [' ']
    if word.length > batchSize then
      match charSplitLoop batchSize fuel word currentBatch batches with
      | none => none
      | some (cb2, bs2) => wordLoop batchSize fuel ws cb2 bs2
    else
      if currentBatch.length + word.length ≤ batchSize then
        wordLoop batchSize fuel ws (currentBatch ++ word) batches
      else
        wordLoop batchSize fuel ws word (batches ++ [currentBatch])

/-- src/src/bot.py lines 140-176 `batch_response`, with explicit fuel for the
character-split inner loop. -/
def batch_response (fuel : Nat) (inMsg : List Char) (batchSize : Nat) :
    Option (List (List Char)) :=
  match wordLoop batchSize fuel (splitOnSpace inMsg) [] [] with
  | none => none
  | some (currentBatch, batches) =>
    some (if currentBatch.length > 0 then batches ++ [currentBatch] else batches)

/-- Concatenation of emitted chunks. -/
def joinAll (l : List (List Char)) : List Char := l.foldr (· ++ ·) []

/-! ### The command handlers (src/src/bot.py)

Each handler is modelled as a function from the backend store and the oracles it
consults (username mapper, completion outcome) to the resulting store, a trace
of observable events, and an outcome (`completed` when the handler exits,
`hang` when it never returns because `batch_response` loops forever). -/

/-- src/src/bot.py lines 137-138 `compose_error_msg`. -/
def compose_error_msg (msg : String) : String := "> Error: " ++ msg

/-- src/src/bot.py line 12 `RM_LEADING_NEWLINES` applied at lines 260-261:
the net effect is to remove the leading run of spaces, carriage returns and
newlines from the completion text. -/
def stripLeadingWhitespace (s : String) : String :=
  String.mk (s.data.dropWhile (fun c => c = ' ' || c = '\r' || c = '\n'))

/-- Outcome of the `create_completion` call (src/src/openai_client.py): a
completion text, the `None` no-answer signal, or a raised transport error. -/
inductive AIOutcome
  | answer (text : String)
  | noAnswer
  | raised
deriving DecidableEq

/-- Observable events of a handler run: repository reads, lock transitions,
trim calls (carrying the budget passed), saves (carrying the saved history) and
messages sent back to the user. -/
inductive Event
  | getEvt (interacting_user_id : Int)
  | acquireEvt
  | releaseEvt
  | trimEvt (budget : Nat)
  | saveEvt (h : ConversationHistory)
  | sendEvt (content : String)
deriving DecidableEq

/-- Whether a handler run exits at all. -/
inductive Outcome
  | completed
  | hang
deriving DecidableEq

/-- Final state of one handler invocation. -/
structure RunResult where
  store : Store
  trace : List Event
  outcome : Outcome

/-- src/src/bot.py lines 276-285: the `/chat` reply template. -/
def respTxt (prompt : String) (userId : Int) (aiResp : String) : String :=
  "> " ++ prompt ++ "\n> \n> ~ <@" ++ toString userId ++ ">\n\n" ++ aiResp

/-- src/src/bot.py line 264 `history.messages[-1].body = ai_resp`: fill in the
body of the last message in place. -/
def setLastBody (msgs : List HistoryMessage) (body : String) : List HistoryMessage :=
  match msgs.getLast? with
  | none => msgs
  | some last => msgs.dropLast ++ [⟨last.author_id, body⟩]

/-- Result of the critical section of `/chat` (the `async with` body,
src/src/bot.py lines 238-288): it finishes, raises, or hangs inside
`batch_response`; each case carries the store afterwards and the events the
body emitted. -/
inductive BodyResult
  | finished (st2 : Store) (events : List Event)
  | raisedErr (st2 : Store) (events : List Event)
  | hung (st2 : Store) (events : List Event)

/-- src/src/bot.py lines 238-288: the `/chat` critical section, entered with
the history object `h0` obtained from `get`.  Notes kept faithful to source:
the budget passed to both `trim` calls is the bare `MAX_PROMPT_LENGTH`
(lines 249 and 265); on the `None` completion the statement
`logger("No AI response")` (line 255) calls a `Logger` object and raises
`TypeError` before the specific error message of line 256 can be sent, so the
no-answer branch exits by exception. -/
def chatCritical (st : Store) (mapper : UsernamesMapper) (h0 : ConversationHistory)
    (userId botId : Int) (prompt : String) (ai : AIOutcome) (fuel : Nat) :
    BodyResult :=
  let msgs1 := h0.messages ++ [⟨userId, prompt⟩, ⟨botId, ""⟩]
  match trim mapper msgs1 MAX_PROMPT_LENGTH with
  | .typeError _ => .raisedErr st [.trimEvt MAX_PROMPT_LENGTH]
  | .ok msgs2 =>
    match ai with
    | .raised => .raisedErr st [.trimEvt MAX_PROMPT_LENGTH]
    | .noAnswer => .raisedErr st [.trimEvt MAX_PROMPT_LENGTH]
    | .answer text =>
      let aiResp := stripLeadingWhitespace text
      let msgs3 := setLastBody msgs2 aiResp
      match trim mapper msgs3 MAX_PROMPT_LENGTH with
      | .typeError _ => .raisedErr st [.trimEvt MAX_PROMPT_LENGTH, .trimEvt MAX_PROMPT_LENGTH]
      | .ok msgs4 =>
        let saved : ConversationHistory := ⟨h0.interacting_user_id, msgs4⟩
        let st2 := save st (get_redis_key userId) saved
        let events := [.trimEvt MAX_PROMPT_LENGTH, .trimEvt MAX_PROMPT_LENGTH, .saveEvt saved]
        match batch_response fuel (respTxt prompt userId aiResp).data MAX_DISCORD_MSG_LENGTH with
        | none => .hung st2 events
        | some batches =>
          .finished st2 (events ++ batches.map (fun b => .sendEvt (String.mk b)))

/-- src/src/bot.py lines 228-295: the `/chat` handler after the channel check:
prompt-length check, repository `get`, then the critical section under the
per-user lock; any exception from the critical section is caught at the top of
the handler after the lock has been released, and answered with the generic
failure message. -/
def chatAfterChannel (st : Store) (mapper : UsernamesMapper) (userId botId : Int)
    (prompt : String) (ai : AIOutcome) (fuel : Nat) : RunResult :=
  if prompt.length > MAX_PROMPT_LENGTH then
    ⟨st, [.sendEvt (compose_error_msg
        ("Prompt cannot me longer than " ++ toString MAX_PROMPT_LENGTH ++ " characters"))],
      .completed⟩
  else
    match repoGet st userId with
    | .parseError =>
      ⟨st, [.getEvt userId, .sendEvt (compose_error_msg "An unexpected error occurred")],
        .completed⟩
    | .ok h0 =>
      match chatCritical st mapper h0 userId botId prompt ai fuel with
      | .finished st2 events =>
        ⟨st2, .getEvt userId :: .acquireEvt :: (events ++ [.releaseEvt]), .completed⟩
      | .raisedErr st2 events =>
        ⟨st2, .getEvt userId :: .acquireEvt ::
          (events ++ [.releaseEvt, .sendEvt (compose_error_msg "An unexpected error occurred")]),
          .completed⟩
      | .hung st2 events =>
        ⟨st2, .getEvt userId :: .acquireEvt :: events, .hang⟩

/-- src/src/bot.py lines 188-198 `check_channel_allowed` wrapped around the
`/chat` body (lines 207-295): if a channel restriction is configured and the
interaction came from another channel, reply with an error and stop before any
other side effect. -/
def chatTurn (st : Store) (mapper : UsernamesMapper) (channelLimit : Option Int)
    (channelId : Int) (userId botId : Int) (prompt : String) (ai : AIOutcome)
    (fuel : Nat) : RunResult :=
  match channelLimit with
  | some cid =>
    if channelId ≠ cid then
      ⟨st, [.sendEvt (compose_error_msg
          ("Only allowed to respond to messages in the <#" ++ toString cid ++ "> channel"))],
        .completed⟩
    else chatAfterChannel st mapper userId botId prompt ai fuel
  | none => chatAfterChannel st mapper userId botId prompt ai fuel

/-- src/src/bot.py lines 432-441: the `/clear-transcript` body after the
channel check: `get`, then under the lock replace `messages` with the empty
list and save. -/
def clearAfterChannel (st : Store) (userId : Int) : RunResult :=
  match repoGet st userId with
  | .parseError =>
    ⟨st, [.getEvt userId, .sendEvt (compose_error_msg "An unexpected error occurred")],
      .completed⟩
  | .ok h0 =>
    let cleared : ConversationHistory := ⟨h0.interacting_user_id, []⟩
    let st2 := save st (get_redis_key userId) cleared
    ⟨st2, [.getEvt userId, .acquireEvt, .saveEvt cleared, .releaseEvt,
      .sendEvt "I have cleared our conversation history, all is forgotten :wink:"],
      .completed⟩

/-- src/src/bot.py lines 419-449 `/clear-transcript`. -/
def clearTurn (st : Store) (channelLimit : Option Int) (channelId : Int)
    (userId : Int) : RunResult :=
  match channelLimit with
  | some cid =>
    if channelId ≠ cid then
      ⟨st, [.sendEvt (compose_error_msg
          ("Only allowed to respond to messages in the <#" ++ toString cid ++ "> channel"))],
        .completed⟩
    else clearAfterChannel st userId
  | none => clearAfterChannel st userId

/-- src/src/bot.py lines 340-351: the `/incognito-chat` reply template. -/
def incognitoRespTxt (prompt : String) (userId : Int) (aiResp : String) : String :=
  ":detective: *Incognito mode, no chat transcript provided to the AI, not saved either* :detective:\n\n> "
    ++ prompt ++ "\n> \n> ~ <@" ++ toString userId ++ ">\n\n" ++ aiResp

/-- src/src/bot.py lines 315-354: the `/incognito-chat` body after the channel
check: prompt length check, completion call on the bare prompt, reply batching.
It never touches the conversation-history repository; as in `/chat`, the `None`
completion branch raises `TypeError` at `logger("No AI response")` (line 325)
and the top-level handler answers with the generic failure message. -/
def incognitoAfterChannel (st : Store) (userId : Int) (prompt : String)
    (ai : AIOutcome) (fuel : Nat) : RunResult :=
  if prompt.length > MAX_PROMPT_LENGTH then
    ⟨st, [.sendEvt (compose_error_msg
        ("Prompt cannot me longer than " ++ toString MAX_PROMPT_LENGTH ++ " characters"))],
      .completed⟩
  else
    match ai with
    | .raised =>
      ⟨st, [.sendEvt (compose_error_msg "An unexpected error occurred")], .completed⟩
    | .noAnswer =>
      ⟨st, [.sendEvt (compose_error_msg "An unexpected error occurred")], .completed⟩
    | .answer text =>
      let aiResp := stripLeadingWhitespace text
      match batch_response fuel (incognitoRespTxt prompt userId aiResp).data
          MAX_DISCORD_MSG_LENGTH with
      | none => ⟨st, [], .hang⟩
      | some batches =>
        ⟨st, batches.map (fun b => .sendEvt (String.mk b)), .completed⟩

/-- src/src/bot.py lines 297-361 `/incognito-chat` with the channel check. -/
def incognitoTurn (st : Store) (channelLimit : Option Int) (channelId : Int)
    (userId : Int) (prompt : String) (ai : AIOutcome) (fuel : Nat) : RunResult :=
  match channelLimit with
  | some cid =>
    if channelId ≠ cid then
      ⟨st, [.sendEvt (compose_error_msg
          ("Only allowed to respond to messages in the <#" ++ toString cid ++ "> channel"))],
        .completed⟩
    else incognitoAfterChannel st userId prompt ai fuel
  | none => incognitoAfterChannel st userId prompt ai fuel

/-- The events emitted by a critical-section body. -/
def bodyEvents : BodyResult → List Event
  | .finished _ ev => ev
  | .raisedErr _ ev => ev
  | .hung _ ev => ev

/-- The store left behind by a critical-section body. -/
def bodyStore : BodyResult → Store
  | .finished st _ => st
  | .raisedErr st _ => st
  | .hung st _ => st

/-- The messages sent to the user during a run. -/
def sentMessages (tr : List Event) : List String :=
  tr.filterMap (fun e => match e with | .sendEvt s => some s | _ => none)

/-- The histories saved during a run. -/
def savedHistories (tr : List Event) : List ConversationHistory :=
  tr.filterMap (fun e => match e with | .saveEvt h => some h | _ => none)

/-- The lock events of a run, in order. -/
def lockEvents (tr : List Event) : List Event :=
  tr.filter (fun e => match e with | .acquireEvt => true | .releaseEvt => true | _ => false)

/-- Whether an event touches the conversation-history repository (a repository
read, a lock transition, or a save). -/
def isRepoOp : Event → Bool
  | .getEvt _ => true
  | .acquireEvt => true
  | .releaseEvt => true
  | .saveEvt _ => true
  | _ => false

/-- A trace whose lock events are properly bracketed: either the lock was never
taken, or it was taken once and released once. -/
def lockBalanced (tr : List Event) : Prop :=
  lockEvents tr = [] ∨ lockEvents tr = [Event.acquireEvt, Event.releaseEvt]

/-! ## Helper lemmas -/

theorem trim_ok_elim {mapper : UsernamesMapper} {msgs msgs2 : List HistoryMessage}
    {mx : Nat} (h : trim mapper msgs mx = .ok msgs2) :
    msgs2 = msgs ∧ (as_transcript_lines mapper msgs).2 ≤ mx := by
  unfold trim at h
  split at h
  · cases h
  · next hc => cases h; exact ⟨rfl, Nat.le_of_not_lt hc⟩

theorem trim_ok_of_le {mapper : UsernamesMapper} {msgs : List HistoryMessage}
    {mx : Nat} (h : (as_transcript_lines mapper msgs).2 ≤ mx) :
    trim mapper msgs mx = .ok msgs := by
  unfold trim
  rw [if_neg (Nat.not_lt.mpr h)]

theorem sum_replicate_nat (n a : Nat) : (List.replicate n a).sum = n * a := by
  induction n with
  | zero => simp
  | succ k ih => simp [List.replicate_succ, ih, Nat.succ_mul]; ring

theorem sum_map_const_add (c : Nat) (f : String → Nat) (l : List String) :
    (l.map (fun x => c + f x)).sum = l.length * c + (l.map f).sum := by
  induction l with
  | nil => simp
  | cons x xs ih =>
    simp [List.map_cons, List.sum_cons, ih, List.length_cons]
    ring

theorem intercalate_go_length (s : String) (l : List String) :
    ∀ acc : String, (String.intercalate.go acc s l).length
      = acc.length + (l.map (fun a => s.length + a.length)).sum := by
  induction l with
  | nil =>
    intro acc
    simp [String.intercalate.go]
  | cons a as ih =>
    intro acc
    simp only [String.intercalate.go]
    rw [ih (acc ++ s ++ a)]
    simp [String.length_append, List.map_cons, List.sum_cons]
    ring

theorem length_intercalate (s : String) (lines : List String) :
    (String.intercalate s lines).length
      = (lines.map String.length).sum + (lines.length - 1) * s.length := by
  cases lines with
  | nil => simp [String.intercalate]
  | cons a as =>
    show (String.intercalate.go a s as).length = _
    rw [intercalate_go_length s as a, sum_map_const_add s.length String.length as]
    simp [List.map_cons, List.sum_cons, List.length_cons]
    ring

theorem transcriptJoined_length (mapper : UsernamesMapper) (msgs : List HistoryMessage) :
    (transcriptJoined mapper msgs).length
      = (as_transcript_lines mapper msgs).2 + (msgs.length - 1) := by
  unfold transcriptJoined as_transcript_lines
  dsimp only
  rw [length_intercalate, List.map_map]
  have hn : ("\n" : String).length = 1 := rfl
  rw [hn, mul_one]
  simp only [List.length_map]
  rfl

theorem decodeMessage_encodeMessage (m : HistoryMessage) :
    decodeMessage (encodeMessage m) = some m := rfl

theorem decodeAll_encode (l : List HistoryMessage) :
    decodeAll (l.map encodeMessage) = some l := by
  induction l with
  | nil => rfl
  | cons m rest ih => simp [decodeAll, decodeMessage_encodeMessage, ih]

theorem decodeHistory_encodeHistory (h : ConversationHistory) :
    decodeHistory (encodeHistory h) = some h := by
  show (match decodeAll (h.messages.map encodeMessage) with
        | some msgs => some (⟨h.interacting_user_id, msgs⟩ : ConversationHistory)
        | none => none) = some h
  rw [decodeAll_encode]

theorem repoGet_save (st : Store) (interacting_user_id : Int)
    (h : ConversationHistory) :
    repoGet (save st (get_redis_key interacting_user_id) h) interacting_user_id
      = .ok h := by
  unfold repoGet save storeSet
  simp [decodeHistory_encodeHistory]

theorem filter_isRepoOp_map_send (l : List (List Char)) :
    (l.map (fun b => Event.sendEvt (String.mk b))).filter isRepoOp = [] := by
  induction l with
  | nil => rfl
  | cons b rest ih => simp [isRepoOp, ih]

theorem savedHistories_map_send (l : List (List Char)) :
    savedHistories (l.map (fun b => Event.sendEvt (String.mk b))) = [] := by
  induction l with
  | nil => rfl
  | cons b rest ih => simp [savedHistories, ih]

theorem lockEvents_map_send (l : List (List Char)) :
    lockEvents (l.map (fun b => Event.sendEvt (String.mk b))) = [] := by
  induction l with
  | nil => rfl
  | cons b rest ih => simp [lockEvents, ih]

/-! ## Claims -/

/-- C1 (code bug): the claim states that after `trim(max_characters)` completes
either the total rendered length is within the budget or a single over-long
message remains.  The code instead raises `TypeError` whenever eviction is
needed: line 163 of src/src/message_history.py applies `len` to the un-awaited
`as_transcript_str` coroutine, after line 162 has already popped the oldest
message.  At the failing input below (two messages rendering to ": abc" and
": defg", total 11, budget 5) `trim` raises instead of completing. -/
theorem C1_trim_crashes_on_eviction :
    trim (fun _ => "") [⟨1, "abc"⟩, ⟨2, "defg"⟩] 5
      = .typeError [⟨2, "defg"⟩] := by decide

/-- C3 (confirmed): when the completion client signals no answer, the `/chat`
handler never reaches `save`: the backend store is returned unchanged and the
trace contains no save event (the no-answer branch exits by the `TypeError`
raised at `logger("No AI response")`, before `history.save()` on line 267). -/
theorem C3_no_answer_no_save (st : Store) (mapper : UsernamesMapper)
    (cl : Option Int) (ch userId botId : Int) (prompt : String) (fuel : Nat) :
    (chatTurn st mapper cl ch userId botId prompt .noAnswer fuel).store = st ∧
    savedHistories (chatTurn st mapper cl ch userId botId prompt .noAnswer fuel).trace
      = [] := by
  have hcrit : ∀ (st2 : Store) (h0 : ConversationHistory),
      chatCritical st2 mapper h0 userId botId prompt .noAnswer fuel
        = .raisedErr st2 [.trimEvt MAX_PROMPT_LENGTH] := by
    intro st2 h0
    unfold chatCritical
    dsimp only
    cases trim mapper (h0.messages ++ [⟨userId, prompt⟩, ⟨botId, ""⟩]) MAX_PROMPT_LENGTH <;> rfl
  have hbody : ∀ st2 : Store,
      (chatAfterChannel st2 mapper userId botId prompt .noAnswer fuel).store = st2 ∧
      savedHistories (chatAfterChannel st2 mapper userId botId prompt .noAnswer fuel).trace
        = [] := by
    intro st2
    unfold chatAfterChannel
    split
    · exact ⟨rfl, rfl⟩
    · split
      · exact ⟨rfl, rfl⟩
      · rw [hcrit]
        exact ⟨rfl, rfl⟩
  unfold chatTurn
  cases cl with
  | none => exact hbody st
  | some cid =>
    dsimp only
    by_cases hch : ch ≠ cid
    · rw [if_pos hch]
      exact ⟨rfl, rfl⟩
    · rw [if_neg hch]
      exact hbody st

/-- C3 witness: a concrete no-answer turn leaving the store unchanged. -/
theorem C3_no_answer_no_save_witness :
    (chatTurn (fun _ => none) (fun _ => "") none 0 1 2 "hi" .noAnswer 0).store
      = (fun _ => none) ∧
    savedHistories (chatTurn (fun _ => none) (fun _ => "") none 0 1 2 "hi" .noAnswer 0).trace
      = [] :=
  C3_no_answer_no_save (fun _ => none) (fun _ => "") none 0 1 2 "hi" 0

/-- C4 (code bug): the claim states that on the no-answer signal the user
receives the specific "The AI did not know what to say" error.  In the code,
`logger("No AI response")` (src/src/bot.py line 255) calls a `Logger` object,
which raises `TypeError` before line 256 can send the specific message; the
top-level handler then sends the generic failure message instead. -/
theorem C4_no_answer_sends_generic_error :
    sentMessages (chatTurn (fun _ => none) (fun _ => "") none 0 1 2 "hi" .noAnswer 0).trace
      = [compose_error_msg "An unexpected error occurred"] ∧
    compose_error_msg "The AI did not know what to say" ∉
      sentMessages (chatTurn (fun _ => none) (fun _ => "") none 0 1 2 "hi" .noAnswer 0).trace := by
  decide

/-- C5 (confirmed): `save` followed by `get` on the same `owner_id` returns the
same history — same author ids, same bodies, same order: serialization to the
backend and parsing back round-trip exactly. -/
theorem C5_save_get_round_trip (st : Store) (interacting_user_id : Int)
    (h : ConversationHistory) :
    repoGet (save st (get_redis_key interacting_user_id) h) interacting_user_id
      = .ok h :=
  repoGet_save st interacting_user_id h

/-- C5 witness: a concrete save/get round trip. -/
theorem C5_save_get_round_trip_witness :
    repoGet (save (fun _ => none) (get_redis_key 3) ⟨3, [⟨1, "a"⟩, ⟨2, "bb"⟩]⟩) 3
      = .ok ⟨3, [⟨1, "a"⟩, ⟨2, "bb"⟩]⟩ :=
  C5_save_get_round_trip (fun _ => none) 3 ⟨3, [⟨1, "a"⟩, ⟨2, "bb"⟩]⟩

/-- C8 (confirmed): `get` never fails with a NotFound condition: a missing
backend entry yields a freshly constructed history with the requested owner id
and no messages, and a present (well-formed) entry yields the stored history. -/
theorem C8_get_never_not_found (st : Store) (interacting_user_id : Int)
    (h : ConversationHistory) :
    (st (get_redis_key interacting_user_id) = none →
      repoGet st interacting_user_id = .ok ⟨interacting_user_id, []⟩) ∧
    (st (get_redis_key interacting_user_id) = some (encodeHistory h) →
      repoGet st interacting_user_id = .ok h) := by
  constructor
  · intro he
    unfold repoGet
    rw [he]
  · intro he
    unfold repoGet
    rw [he]
    simp [decodeHistory_encodeHistory]

/-- C8 witness: on an empty backend, `get 7` returns the fresh empty history;
on a backend holding one saved history under the key for owner 3, `get 3`
returns that history. -/
theorem C8_get_never_not_found_witness :
    ((fun _ => none : Store) (get_redis_key 7) = none ∧
      repoGet (fun _ => none) 7 = .ok ⟨7, []⟩) ∧
    ((save (fun _ => none) (get_redis_key 3) ⟨3, [⟨1, "a"⟩]⟩) (get_redis_key 3)
        = some (encodeHistory ⟨3, [⟨1, "a"⟩]⟩) ∧
      repoGet (save (fun _ => none) (get_redis_key 3) ⟨3, [⟨1, "a"⟩]⟩) 3
        = .ok ⟨3, [⟨1, "a"⟩]⟩) :=
  ⟨⟨rfl, (C8_get_never_not_found (fun _ => none) 7 ⟨7, []⟩).1 rfl⟩,
   ⟨by simp [save, storeSet],
    (C8_get_never_not_found (save (fun _ => none) (get_redis_key 3) ⟨3, [⟨1, "a"⟩]⟩) 3
      ⟨3, [⟨1, "a"⟩]⟩).2 (by simp [save, storeSet])⟩⟩

/-- C10 (confirmed): the `/incognito-chat` handler performs no repository
operation at all — no `get`, no lock, no `save` — and leaves the backend store
unchanged, whatever the completion outcome (answer, no answer, or a raised
error) and whether or not the reply batching terminates. -/
theorem C10_incognito_touches_no_history (st : Store) (cl : Option Int)
    (ch userId : Int) (prompt : String) (ai : AIOutcome) (fuel : Nat) :
    (incognitoTurn st cl ch userId prompt ai fuel).store = st ∧
    (incognitoTurn st cl ch userId prompt ai fuel).trace.filter isRepoOp = [] := by
  have hbody : ∀ st2 : Store,
      (incognitoAfterChannel st2 userId prompt ai fuel).store = st2 ∧
      (incognitoAfterChannel st2 userId prompt ai fuel).trace.filter isRepoOp = [] := by
    intro st2
    unfold incognitoAfterChannel
    split
    · exact ⟨rfl, rfl⟩
    · cases ai with
      | raised => exact ⟨rfl, rfl⟩
      | noAnswer => exact ⟨rfl, rfl⟩
      | answer text =>
        dsimp only
        cases batch_response fuel
            (incognitoRespTxt prompt userId (stripLeadingWhitespace text)).data
            MAX_DISCORD_MSG_LENGTH with
        | none => exact ⟨rfl, rfl⟩
        | some batches => exact ⟨rfl, filter_isRepoOp_map_send batches⟩
  unfold incognitoTurn
  cases cl with
  | none => exact hbody st
  | some cid =>
    dsimp only
    by_cases hch : ch ≠ cid
    · rw [if_pos hch]
      exact ⟨rfl, rfl⟩
    · rw [if_neg hch]
      exact hbody st

/-- C10 witness: a concrete incognito run touching no repository state. -/
theorem C10_incognito_touches_no_history_witness :
    (incognitoTurn (fun _ => none) none 0 1 "hi" (.answer "yo") 5).store
      = (fun _ => none) ∧
    (incognitoTurn (fun _ => none) none 0 1 "hi" (.answer "yo") 5).trace.filter isRepoOp
      = [] :=
  C10_incognito_touches_no_history (fun _ => none) none 0 1 "hi" (.answer "yo") 5

theorem chatCritical_no_lock (st : Store) (mapper : UsernamesMapper)
    (h0 : ConversationHistory) (userId botId : Int) (prompt : String)
    (ai : AIOutcome) (fuel : Nat) :
    lockEvents (bodyEvents (chatCritical st mapper h0 userId botId prompt ai fuel)) = [] := by
  unfold chatCritical
  dsimp only
  cases trim mapper (h0.messages ++ [⟨userId, prompt⟩, ⟨botId, ""⟩]) MAX_PROMPT_LENGTH with
  | typeError m => rfl
  | ok msgs2 =>
    cases ai with
    | raised => rfl
    | noAnswer => rfl
    | answer text =>
      dsimp only
      cases trim mapper (setLastBody msgs2 (stripLeadingWhitespace text)) MAX_PROMPT_LENGTH with
      | typeError m => rfl
      | ok msgs4 =>
        dsimp only
        cases batch_response fuel (respTxt prompt userId (stripLeadingWhitespace text)).data
            MAX_DISCORD_MSG_LENGTH with
        | none => rfl
        | some batches =>
          have hm := lockEvents_map_send batches
          unfold lockEvents at hm ⊢
          simp only [bodyEvents, List.filter_append, hm]
          rfl

theorem chatCritical_save_bounded (st : Store) (mapper : UsernamesMapper)
    (h0 : ConversationHistory) (userId botId : Int) (prompt : String)
    (ai : AIOutcome) (fuel : Nat) (h : ConversationHistory) :
    Event.saveEvt h ∈ bodyEvents (chatCritical st mapper h0 userId botId prompt ai fuel) →
    (as_transcript_lines mapper h.messages).2 ≤ MAX_PROMPT_LENGTH := by
  unfold chatCritical
  dsimp only
  cases trim mapper (h0.messages ++ [⟨userId, prompt⟩, ⟨botId, ""⟩]) MAX_PROMPT_LENGTH with
  | typeError m => intro hmem; simp [bodyEvents] at hmem
  | ok msgs2 =>
    cases ai with
    | raised => intro hmem; simp [bodyEvents] at hmem
    | noAnswer => intro hmem; simp [bodyEvents] at hmem
    | answer text =>
      dsimp only
      cases htr2 : trim mapper (setLastBody msgs2 (stripLeadingWhitespace text))
          MAX_PROMPT_LENGTH with
      | typeError m => intro hmem; simp [bodyEvents] at hmem
      | ok msgs4 =>
        have hb := trim_ok_elim htr2
        dsimp only
        cases batch_response fuel (respTxt prompt userId (stripLeadingWhitespace text)).data
            MAX_DISCORD_MSG_LENGTH with
        | none =>
          intro hmem
          simp [bodyEvents] at hmem
          subst hmem
          rw [show (ConversationHistory.mk h0.interacting_user_id msgs4).messages = msgs4 from rfl,
            hb.1]
          exact hb.2
        | some batches =>
          intro hmem
          simp [bodyEvents] at hmem
          subst hmem
          rw [show (ConversationHistory.mk h0.interacting_user_id msgs4).messages = msgs4 from rfl,
            hb.1]
          exact hb.2

theorem chatAfterChannel_save_bounded (st : Store) (mapper : UsernamesMapper)
    (userId botId : Int) (prompt : String) (ai : AIOutcome) (fuel : Nat)
    (h : ConversationHistory) :
    Event.saveEvt h ∈ (chatAfterChannel st mapper userId botId prompt ai fuel).trace →
    (as_transcript_lines mapper h.messages).2 ≤ MAX_PROMPT_LENGTH := by
  unfold chatAfterChannel
  split
  · intro hmem; simp at hmem
  · cases hget : repoGet st userId with
    | parseError => intro hmem; simp at hmem
    | ok h0 =>
      dsimp only
      have hcb := chatCritical_save_bounded st mapper h0 userId botId prompt ai fuel h
      cases hcrit : chatCritical st mapper h0 userId botId prompt ai fuel with
      | finished st2 events =>
        rw [hcrit] at hcb
        dsimp only [bodyEvents] at hcb
        intro hmem
        simp at hmem
        exact hcb hmem
      | raisedErr st2 events =>
        rw [hcrit] at hcb
        dsimp only [bodyEvents] at hcb
        intro hmem
        simp at hmem
        exact hcb hmem
      | hung st2 events =>
        rw [hcrit] at hcb
        dsimp only [bodyEvents] at hcb
        intro hmem
        simp at hmem
        exact hcb hmem

theorem clearAfterChannel_save_empty (st : Store) (userId : Int)
    (h : ConversationHistory) :
    Event.saveEvt h ∈ (clearAfterChannel st userId).trace → h.messages = [] := by
  unfold clearAfterChannel
  cases repoGet st userId with
  | parseError => intro hmem; simp at hmem
  | ok h0 =>
    intro hmem
    simp at hmem
    rw [hmem]

theorem chatAfterChannel_mem_of_body (st : Store) (mapper : UsernamesMapper)
    (userId botId : Int) (prompt : String) (ai : AIOutcome) (fuel : Nat)
    (e : Event) (h0 : ConversationHistory)
    (hlen : ¬ prompt.length > MAX_PROMPT_LENGTH)
    (hget : repoGet st userId = .ok h0)
    (hmem : e ∈ bodyEvents (chatCritical st mapper h0 userId botId prompt ai fuel)) :
    e ∈ (chatAfterChannel st mapper userId botId prompt ai fuel).trace := by
  unfold chatAfterChannel
  rw [if_neg hlen, hget]
  dsimp only
  cases hcrit : chatCritical st mapper h0 userId botId prompt ai fuel with
  | finished st2 events =>
    rw [hcrit] at hmem
    dsimp only [bodyEvents] at hmem
    dsimp only
    simp [hmem]
  | raisedErr st2 events =>
    rw [hcrit] at hmem
    dsimp only [bodyEvents] at hmem
    dsimp only
    simp [hmem]
  | hung st2 events =>
    rw [hcrit] at hmem
    dsimp only [bodyEvents] at hmem
    dsimp only
    simp [hmem]

/-- C2 (amended): the budget passed to `trim` at the `/chat` call sites is the
bare `MAX_PROMPT_LENGTH`, with no reserved-character subtraction; and the bound
that holds after any finalized mutation — a save performed by `/chat` or by
`/clear-transcript` — is on the measure the code uses, the sum of rendered line
lengths WITHOUT newline separators: that sum never exceeds `MAX_PROMPT_LENGTH`.
For the newline-joined transcript of the claim, the saved history's length is
exactly that sum plus one separator per gap, so it is only bounded by
`MAX_PROMPT_LENGTH` plus the number of message gaps — and it genuinely exceeds
`MAX_PROMPT_LENGTH` at reachable saves (see the counterexample). -/
theorem C2_saved_transcript_bounded (st : Store) (mapper : UsernamesMapper)
    (cl : Option Int) (ch userId botId : Int) (prompt : String) (ai : AIOutcome)
    (fuel : Nat) (h : ConversationHistory)
    (hmem : Event.saveEvt h ∈ (chatTurn st mapper cl ch userId botId prompt ai fuel).trace ∨
            Event.saveEvt h ∈ (clearTurn st cl ch userId).trace) :
    (as_transcript_lines mapper h.messages).2 ≤ MAX_PROMPT_LENGTH ∧
    (transcriptJoined mapper h.messages).length
      ≤ MAX_PROMPT_LENGTH + (h.messages.length - 1) := by
  have hsum : (as_transcript_lines mapper h.messages).2 ≤ MAX_PROMPT_LENGTH := by
    rcases hmem with hmem | hmem
    · unfold chatTurn at hmem
      cases cl with
      | none => exact chatAfterChannel_save_bounded st mapper userId botId prompt ai fuel h hmem
      | some cid =>
        dsimp only at hmem
        by_cases hch : ch ≠ cid
        · rw [if_pos hch] at hmem; simp at hmem
        · rw [if_neg hch] at hmem
          exact chatAfterChannel_save_bounded st mapper userId botId prompt ai fuel h hmem
    · have hempty : h.messages = [] := by
        unfold clearTurn at hmem
        cases cl with
        | none => exact clearAfterChannel_save_empty st userId h hmem
        | some cid =>
          dsimp only at hmem
          by_cases hch : ch ≠ cid
          · rw [if_pos hch] at hmem; simp at hmem
          · rw [if_neg hch] at hmem
            exact clearAfterChannel_save_empty st userId h hmem
      rw [hempty]
      simp [as_transcript_lines]
  refine ⟨hsum, ?_⟩
  rw [transcriptJoined_length]
  omega

/-- C2 witness: a concrete completed `/chat` turn whose save event satisfies
both parts of the amended bound. -/
theorem C2_saved_transcript_bounded_witness :
    (Event.saveEvt ⟨1, [⟨1, "hi"⟩, ⟨2, "yo"⟩]⟩ ∈
        (chatTurn (fun _ => none) (fun _ => "") none 0 1 2 "hi" (.answer "yo") 5).trace ∨
      Event.saveEvt ⟨1, [⟨1, "hi"⟩, ⟨2, "yo"⟩]⟩ ∈
        (clearTurn (fun _ => none) none 0 1).trace) ∧
    ((as_transcript_lines (fun _ => "")
        (ConversationHistory.mk 1 [⟨1, "hi"⟩, ⟨2, "yo"⟩]).messages).2 ≤ MAX_PROMPT_LENGTH ∧
      (transcriptJoined (fun _ => "")
          (ConversationHistory.mk 1 [⟨1, "hi"⟩, ⟨2, "yo"⟩]).messages).length
        ≤ MAX_PROMPT_LENGTH
          + ((ConversationHistory.mk 1 [⟨1, "hi"⟩, ⟨2, "yo"⟩]).messages.length - 1)) :=
  ⟨Or.inl (by decide),
   C2_saved_transcript_bounded (fun _ => none) (fun _ => "") none 0 1 2 "hi" (.answer "yo") 5
     ⟨1, [⟨1, "hi"⟩, ⟨2, "yo"⟩]⟩ (Or.inl (by decide))⟩

/-- C2 counterexample: the claimed invariant fails on the code in both of its
ingredients.  First, for the measure the claim uses — the newline-joined
rendered transcript — the bound is violated at a reachable save: a `/chat` turn
over a stored history of 2000 empty-bodied messages (null usernames mapper, so
every line is ": " of length 2) completes and saves a history whose line-length
sum is 4006, so both `trim` calls pass, but whose newline-joined transcript has
length 6007 > `MAX_PROMPT_LENGTH` — a fortiori it exceeds
`MAX_PROMPT_LENGTH - reserved` for every reservation.  Second, the budget the
code passes to `trim` is the bare `MAX_PROMPT_LENGTH` (bot.py lines 249, 265),
which no positive `reserved_characters` subtraction can produce. -/
theorem C2_joined_budget_counterexample :
    (Event.saveEvt ⟨1, List.replicate 2000 ⟨1, ""⟩ ++ [⟨1, "x"⟩, ⟨2, "y"⟩]⟩ ∈
        (chatTurn (save (fun _ => none) (get_redis_key 1) ⟨1, List.replicate 2000 ⟨1, ""⟩⟩)
          (fun _ => "") none 0 1 2 "x" (.answer "y") 1).trace ∧
      MAX_PROMPT_LENGTH <
        (transcriptJoined (fun _ => "")
          (List.replicate 2000 ⟨1, ""⟩ ++ [⟨1, "x"⟩, ⟨2, "y"⟩])).length) ∧
    (Event.trimEvt MAX_PROMPT_LENGTH ∈
        (chatTurn (fun _ => none) (fun _ => "") none 0 1 2 "hi" (.answer "yo") 5).trace ∧
      ¬ ∃ reserved : Nat, 0 < reserved ∧
          MAX_PROMPT_LENGTH - reserved = MAX_PROMPT_LENGTH) := by
  have hmaprep : (List.replicate 2000 (⟨1, ""⟩ : HistoryMessage)).map
      (fun m => (as_transcript_str (fun _ => "") m).length) = List.replicate 2000 2 := by
    rw [List.map_replicate]
    rfl
  have htot1 : (as_transcript_lines (fun _ => "")
      (List.replicate 2000 ⟨1, ""⟩ ++ [⟨1, "x"⟩, ⟨2, ""⟩])).2 = 4005 := by
    unfold as_transcript_lines
    dsimp only
    rw [List.map_append, hmaprep, List.sum_append, sum_replicate_nat]
    rfl
  have htot2 : (as_transcript_lines (fun _ => "")
      (List.replicate 2000 ⟨1, ""⟩ ++ [⟨1, "x"⟩, ⟨2, "y"⟩])).2 = 4006 := by
    unfold as_transcript_lines
    dsimp only
    rw [List.map_append, hmaprep, List.sum_append, sum_replicate_nat]
    rfl
  have hlen2002 : (List.replicate 2000 (⟨1, ""⟩ : HistoryMessage)
      ++ ([⟨1, "x"⟩, ⟨2, "y"⟩] : List HistoryMessage)).length = 2002 := by
    rw [List.length_append, List.length_replicate]
    rfl
  refine ⟨⟨?_, ?_⟩, ?_, ?_⟩
  · have htrim1 : trim (fun _ => "")
        (List.replicate 2000 ⟨1, ""⟩ ++ [⟨1, "x"⟩, ⟨2, ""⟩]) MAX_PROMPT_LENGTH
        = .ok (List.replicate 2000 ⟨1, ""⟩ ++ [⟨1, "x"⟩, ⟨2, ""⟩]) :=
      trim_ok_of_le (by rw [htot1]; decide)
    have htrim2 : trim (fun _ => "")
        (List.replicate 2000 ⟨1, ""⟩ ++ [⟨1, "x"⟩, ⟨2, "y"⟩]) MAX_PROMPT_LENGTH
        = .ok (List.replicate 2000 ⟨1, ""⟩ ++ [⟨1, "x"⟩, ⟨2, "y"⟩]) :=
      trim_ok_of_le (by rw [htot2]; decide)
    have hlast : setLastBody (List.replicate 2000 ⟨1, ""⟩ ++ [⟨1, "x"⟩, ⟨2, ""⟩]) "y"
        = List.replicate 2000 ⟨1, ""⟩ ++ [⟨1, "x"⟩, ⟨2, "y"⟩] := by
      unfold setLastBody
      have h1 : List.replicate 2000 (⟨1, ""⟩ : HistoryMessage) ++ [⟨1, "x"⟩, ⟨2, ""⟩]
          = (List.replicate 2000 ⟨1, ""⟩ ++ [⟨1, "x"⟩]) ++ [⟨2, ""⟩] :=
        (List.append_assoc (List.replicate 2000 (⟨1, ""⟩ : HistoryMessage))
          [⟨1, "x"⟩] [⟨2, ""⟩]).symm
      rw [h1, List.getLast?_concat, List.dropLast_concat]
      dsimp only
      exact List.append_assoc (List.replicate 2000 (⟨1, ""⟩ : HistoryMessage))
        [⟨1, "x"⟩] [⟨2, "y"⟩]
    have hbody : Event.saveEvt ⟨1, List.replicate 2000 ⟨1, ""⟩ ++ [⟨1, "x"⟩, ⟨2, "y"⟩]⟩ ∈
        bodyEvents (chatCritical
          (save (fun _ => none) (get_redis_key 1) ⟨1, List.replicate 2000 ⟨1, ""⟩⟩)
          (fun _ => "") ⟨1, List.replicate 2000 ⟨1, ""⟩⟩ 1 2 "x" (.answer "y") 1) := by
      unfold chatCritical
      dsimp only
      rw [htrim1]
      dsimp only
      rw [show stripLeadingWhitespace "y" = "y" from rfl, hlast, htrim2]
      dsimp only
      cases batch_response 1 (respTxt "x" 1 "y").data MAX_DISCORD_MSG_LENGTH with
      | none =>
        dsimp only [bodyEvents]
        exact List.mem_cons_of_mem _ (List.mem_cons_of_mem _ (List.mem_cons_self _ _))
      | some batches =>
        dsimp only [bodyEvents]
        exact List.mem_append_left _
          (List.mem_cons_of_mem _ (List.mem_cons_of_mem _ (List.mem_cons_self _ _)))
    exact chatAfterChannel_mem_of_body
      (save (fun _ => none) (get_redis_key 1) ⟨1, List.replicate 2000 ⟨1, ""⟩⟩)
      (fun _ => "") 1 2 "x" (.answer "y") 1 _ ⟨1, List.replicate 2000 ⟨1, ""⟩⟩
      (by decide)
      (repoGet_save (fun _ => none) 1 ⟨1, List.replicate 2000 ⟨1, ""⟩⟩)
      hbody
  · have hj : (transcriptJoined (fun _ => "")
        (List.replicate 2000 ⟨1, ""⟩ ++ [⟨1, "x"⟩, ⟨2, "y"⟩])).length = 6007 := by
      rw [transcriptJoined_length, htot2, hlen2002]
    rw [hj]
    decide
  · decide
  · rintro ⟨r, hr, he⟩
    unfold MAX_PROMPT_LENGTH at he
    omega

theorem chatAfterChannel_lock (st : Store) (mapper : UsernamesMapper)
    (userId botId : Int) (prompt : String) (ai : AIOutcome) (fuel : Nat) :
    (chatAfterChannel st mapper userId botId prompt ai fuel).outcome = .completed →
    lockBalanced (chatAfterChannel st mapper userId botId prompt ai fuel).trace := by
  unfold chatAfterChannel
  split
  · intro _; exact Or.inl rfl
  · cases hget : repoGet st userId with
    | parseError => intro _; exact Or.inl rfl
    | ok h0 =>
      dsimp only
      have hnl := chatCritical_no_lock st mapper h0 userId botId prompt ai fuel
      cases hcrit : chatCritical st mapper h0 userId botId prompt ai fuel with
      | finished st2 events =>
        rw [hcrit] at hnl
        dsimp only [bodyEvents] at hnl
        dsimp only
        intro _
        refine Or.inr ?_
        have hnl2 : events.filter
            (fun e => match e with
              | .acquireEvt => true | .releaseEvt => true | _ => false) = [] := hnl
        unfold lockEvents
        simp only [List.filter_cons, List.filter_append, hnl2]
        rfl
      | raisedErr st2 events =>
        rw [hcrit] at hnl
        dsimp only [bodyEvents] at hnl
        dsimp only
        intro _
        refine Or.inr ?_
        have hnl2 : events.filter
            (fun e => match e with
              | .acquireEvt => true | .releaseEvt => true | _ => false) = [] := hnl
        unfold lockEvents
        simp only [List.filter_cons, List.filter_append, hnl2]
        rfl
      | hung st2 events =>
        dsimp only
        intro hout
        simp at hout

theorem clearAfterChannel_lock (st : Store) (userId : Int) :
    lockBalanced (clearAfterChannel st userId).trace := by
  unfold clearAfterChannel
  cases repoGet st userId with
  | parseError => exact Or.inl rfl
  | ok h0 => exact Or.inr rfl

/-- C9 (confirmed): on every exit path of the `/chat` and `/clear-transcript`
handlers — normal completion, early return, or an exception raised inside the
critical section (a trim `TypeError`, a raised completion call, or the
no-answer branch, which exits via the `logger` `TypeError`) — the per-owner
lock is released exactly once after being acquired, or was never acquired.
The `hang` outcome (the reply batching looping forever inside the critical
section) is not an exit path: the handler never exits there. -/
theorem C9_lock_released_on_exit :
    (∀ (st : Store) (mapper : UsernamesMapper) (cl : Option Int) (ch userId botId : Int)
        (prompt : String) (ai : AIOutcome) (fuel : Nat),
      (chatTurn st mapper cl ch userId botId prompt ai fuel).outcome = .completed →
      lockBalanced (chatTurn st mapper cl ch userId botId prompt ai fuel).trace) ∧
    (∀ (st : Store) (cl : Option Int) (ch userId : Int),
      lockBalanced (clearTurn st cl ch userId).trace) := by
  constructor
  · intro st mapper cl ch userId botId prompt ai fuel
    unfold chatTurn
    cases cl with
    | none => exact chatAfterChannel_lock st mapper userId botId prompt ai fuel
    | some cid =>
      dsimp only
      by_cases hch : ch ≠ cid
      · rw [if_pos hch]; intro _; exact Or.inl rfl
      · rw [if_neg hch]; exact chatAfterChannel_lock st mapper userId botId prompt ai fuel
  · intro st cl ch userId
    unfold clearTurn
    cases cl with
    | none => exact clearAfterChannel_lock st userId
    | some cid =>
      dsimp only
      by_cases hch : ch ≠ cid
      · rw [if_pos hch]; exact Or.inl rfl
      · rw [if_neg hch]; exact clearAfterChannel_lock st userId

/-- C9 witness: a concrete completed `/chat` turn and a concrete
`/clear-transcript` run, both with balanced lock events. -/
theorem C9_lock_released_on_exit_witness :
    ((chatTurn (fun _ => none) (fun _ => "") none 0 1 2 "hi" (.answer "yo") 5).outcome
        = .completed ∧
      lockBalanced (chatTurn (fun _ => none) (fun _ => "") none 0 1 2 "hi"
        (.answer "yo") 5).trace) ∧
    lockBalanced (clearTurn (fun _ => none) none 0 7).trace :=
  ⟨⟨by decide,
    C9_lock_released_on_exit.1 (fun _ => none) (fun _ => "") none 0 1 2 "hi"
      (.answer "yo") 5 (by decide)⟩,
   C9_lock_released_on_exit.2 (fun _ => none) none 0 7⟩

/-! ### Chunking lemmas -/

theorem joinAll_nil : joinAll [] = [] := rfl

theorem joinAll_cons (x : List Char) (xs : List (List Char)) :
    joinAll (x :: xs) = x ++ joinAll xs := rfl

theorem joinAll_append (a b : List (List Char)) :
    joinAll (a ++ b) = joinAll a ++ joinAll b := by
  induction a with
  | nil => rfl
  | cons x xs ih => simp [joinAll_cons, ih, List.append_assoc]

theorem splitOnSpace_ne_nil (l : List Char) : splitOnSpace l ≠ [] := by
  cases l with
  | nil => simp [splitOnSpace]
  | cons c rest =>
    unfold splitOnSpace
    split
    · simp
    · split <;> simp

theorem join_splitOnSpace (l : List Char) :
    joinAll ((splitOnSpace l).map (fun w => w ++ [' '])) = l ++ [' '] := by
  induction l with
  | nil => rfl
  | cons c rest ih =>
    by_cases hc : c = ' '
    · subst hc
      unfold splitOnSpace
      rw [if_pos rfl]
      simp only [List.map_cons, joinAll_cons, List.nil_append]
      rw [ih]
      rfl
    · cases hsp : splitOnSpace rest with
      | nil => exact absurd hsp (splitOnSpace_ne_nil rest)
      | cons w ws =>
        rw [hsp] at ih
        simp only [List.map_cons, joinAll_cons] at ih
        unfold splitOnSpace
        rw [if_neg hc, hsp]
        simp only [List.map_cons, joinAll_cons]
        calc ((c :: w) ++ [' ']) ++ joinAll (ws.map (fun w => w ++ [' ']))
            = c :: ((w ++ [' ']) ++ joinAll (ws.map (fun w => w ++ [' ']))) := by
              simp [List.append_assoc]
          _ = c :: (rest ++ [' ']) := by rw [ih]
          _ = (c :: rest) ++ [' '] := rfl

theorem wordLoop_all_short (bs fuel : Nat) (ws : List (List Char)) :
    ∀ (cb : List Char) (batches : List (List Char)),
      (∀ w ∈ ws, w.length + 1 ≤ bs) → cb.length ≤ bs →
      (∀ b ∈ batches, b.length ≤ bs) →
      ∃ cb2 batches2,
        wordLoop bs fuel ws cb batches = some (cb2, batches2) ∧
        cb2.length ≤ bs ∧ (∀ b ∈ batches2, b.length ≤ bs) ∧
        joinAll batches2 ++ cb2
          = joinAll batches ++ cb ++ joinAll (ws.map (fun w => w ++ [' '])) := by
  induction ws with
  | nil =>
    intro cb batches _ hcb hbat
    exact ⟨cb, batches, rfl, hcb, hbat, by simp [joinAll]⟩
  | cons w ws ih =>
    intro cb batches hws hcb hbat
    have hw : w.length + 1 ≤ bs := hws w (by simp)
    have hws2 : ∀ w2 ∈ ws, w2.length + 1 ≤ bs := fun w2 hw2 => hws w2 (by simp [hw2])
    have hlen : (w ++ [' ']).length = w.length + 1 := by simp
    unfold wordLoop
    dsimp only
    rw [if_neg (by rw [hlen]; omega : ¬ (w ++ [' ']).length > bs)]
    by_cases hfit : cb.length + (w ++ [' ']).length ≤ bs
    · rw [if_pos hfit]
      obtain ⟨cb2, b2, hrun, h1, h2, h3⟩ := ih (cb ++ (w ++ [' '])) batches hws2
        (by rw [List.length_append]; exact hfit) hbat
      refine ⟨cb2, b2, hrun, h1, h2, ?_⟩
      rw [h3]
      simp [joinAll_cons, List.append_assoc]
    · rw [if_neg hfit]
      obtain ⟨cb2, b2, hrun, h1, h2, h3⟩ := ih (w ++ [' ']) (batches ++ [cb]) hws2
        (by rw [hlen]; exact hw)
        (by
          intro b hb
          rcases List.mem_append.mp hb with hb | hb
          · exact hbat b hb
          · simp at hb
            rw [hb]
            exact hcb)
      refine ⟨cb2, b2, hrun, h1, h2, ?_⟩
      rw [h3, joinAll_append]
      simp [joinAll_cons, joinAll, List.append_assoc]

theorem charSplitLoop_step (bs f : Nat) (word cb : List Char)
    (batches : List (List Char)) (hw : word ≠ []) :
    charSplitLoop bs (f + 1) word cb batches
      = charSplitLoop bs f (pyDrop word ((bs : Int) - cb.length))
          (cb ++ pyTake word ((bs : Int) - cb.length)) batches := by
  simp only [charSplitLoop]
  rw [if_pos (List.length_pos.mpr hw)]
  simp [pyStrEqInt]

theorem charSplitLoop_stuck (bs fuel : Nat) (word cb : List Char)
    (batches : List (List Char)) (hcb : cb.length = bs) (hw : word ≠ []) :
    charSplitLoop bs fuel word cb batches = none := by
  induction fuel with
  | zero => rfl
  | succ f ih =>
    rw [charSplitLoop_step bs f word cb batches hw]
    have hrem : (bs : Int) - (cb.length : Int) = 0 := by rw [hcb]; exact sub_self _
    rw [hrem]
    have ht : pyTake word 0 = [] := by simp [pyTake]
    have hd : pyDrop word 0 = word := by simp [pyDrop]
    rw [ht, hd, List.append_nil]
    exact ih

theorem charSplitLoop_long_word_none (bs fuel : Nat) (word cb : List Char)
    (batches : List (List Char)) (hcb : cb.length ≤ bs) (hword : bs < word.length) :
    charSplitLoop bs fuel word cb batches = none := by
  cases fuel with
  | zero => rfl
  | succ f =>
    have hw : word ≠ [] := by
      intro hnil
      rw [hnil] at hword
      simp at hword
    rw [charSplitLoop_step bs f word cb batches hw]
    have hnneg : ¬ ((bs : Int) - (cb.length : Int) < 0) := by omega
    have htoNat : ((bs : Int) - (cb.length : Int)).toNat = bs - cb.length := by omega
    have ht : pyTake word ((bs : Int) - cb.length) = word.take (bs - cb.length) := by
      unfold pyTake
      rw [if_neg hnneg, htoNat]
    have hd : pyDrop word ((bs : Int) - cb.length) = word.drop (bs - cb.length) := by
      unfold pyDrop
      rw [if_neg hnneg, htoNat]
    rw [ht, hd]
    apply charSplitLoop_stuck
    · rw [List.length_append, List.length_take]
      omega
    · intro hnil
      have hlen := congrArg List.length hnil
      rw [List.length_drop] at hlen
      simp at hlen
      omega

/-- C6 (amended): for inputs in which every word, together with its reinserted
trailing space, fits in `max_chunk_size`, `batch_response` returns chunks that
never exceed `max_chunk_size` and whose in-order concatenation is the original
text followed by the single reinserted trailing separator (the space appended to
the last word).  When some word plus its trailing space exceeds
`max_chunk_size`, `batch_response` returns nothing at all (see the
counterexample): the character-split loop never terminates. -/
theorem C6_chunking_correct_short_words (inMsg : List Char) (bs fuel : Nat)
    (hshort : ∀ w ∈ splitOnSpace inMsg, w.length + 1 ≤ bs) :
    ∃ out, batch_response fuel inMsg bs = some out ∧
      (∀ c ∈ out, c.length ≤ bs) ∧
      joinAll out = inMsg ++ [' '] := by
  obtain ⟨cb2, b2, hrun, h1, h2, h3⟩ :=
    wordLoop_all_short bs fuel (splitOnSpace inMsg) [] [] hshort (by simp) (by simp)
  rw [join_splitOnSpace] at h3
  simp only [joinAll_nil, List.nil_append] at h3
  refine ⟨if cb2.length > 0 then b2 ++ [cb2] else b2, ?_, ?_, ?_⟩
  · unfold batch_response
    rw [hrun]
  · intro c hc
    by_cases hpos : cb2.length > 0
    · rw [if_pos hpos] at hc
      rcases List.mem_append.mp hc with hc | hc
      · exact h2 c hc
      · simp at hc
        rw [hc]
        exact h1
    · rw [if_neg hpos] at hc
      exact h2 c hc
  · by_cases hpos : cb2.length > 0
    · rw [if_pos hpos, joinAll_append]
      simpa [joinAll] using h3
    · rw [if_neg hpos]
      have hnil : cb2 = [] := List.length_eq_zero.mp (by omega)
      rw [hnil, List.append_nil] at h3
      exact h3

/-- C6 witness: the input "ab c" with chunk size 4 (every word plus its
trailing space fits) satisfies the amended chunking contract. -/
theorem C6_chunking_correct_short_words_witness :
    (∀ w ∈ splitOnSpace "ab c".data, w.length + 1 ≤ 4) ∧
    ∃ out, batch_response 0 "ab c".data 4 = some out ∧
      (∀ c ∈ out, c.length ≤ 4) ∧
      joinAll out = "ab c".data ++ [' '] :=
  ⟨by decide, C6_chunking_correct_short_words "ab c".data 4 0 (by decide)⟩

/-- C6 counterexample: for the input "bbbb" with `max_chunk_size = 3` (a word
whose length plus trailing space exceeds the chunk size) `batch_response`
returns no chunk list at all, for any amount of fuel: the `while` loop of the
character-split branch runs forever, because `current_batch == batch_size`
(src/src/bot.py line 162) compares a `str` with an `int` and is always false,
and once the chunk is full zero characters are consumed per iteration.  So the
claimed universal chunking contract fails. -/
theorem C6_chunking_counterexample :
    ¬ ∃ fuel out, batch_response fuel "bbbb".data 3 = some out := by
  rintro ⟨fuel, out, hsome⟩
  have hs : splitOnSpace "bbbb".data = [['b', 'b', 'b', 'b']] := rfl
  have hc : charSplitLoop 3 fuel ['b', 'b', 'b', 'b', ' '] [] [] = none :=
    charSplitLoop_long_word_none 3 fuel _ _ _ (by decide) (by decide)
  have hw : wordLoop 3 fuel [['b', 'b', 'b', 'b']] [] [] = none := by
    simp [wordLoop, hc]
  unfold batch_response at hsome
  rw [hs, hw] at hsome
  simp at hsome

/-- C7 (code bug): the claim states `batch_response` terminates on every input,
hard-splitting over-long words by character count.  In the code, once a word
plus its trailing space exceeds the chunk size, the character-split loop stops
consuming characters as soon as the current chunk is full (the flush condition
`current_batch == batch_size` compares a `str` with an `int` and is always
false) and loops forever: for the input "aaa" with `max_chunk_size = 2` no
amount of fuel makes the loop exit. -/
theorem C7_batch_response_diverges (fuel : Nat) :
    batch_response fuel "aaa".data 2 = none := by
  have hs : splitOnSpace "aaa".data = [['a', 'a', 'a']] := rfl
  have hc : charSplitLoop 2 fuel ['a', 'a', 'a', ' '] [] [] = none :=
    charSplitLoop_long_word_none 2 fuel _ _ _ (by decide) (by decide)
  have hw : wordLoop 2 fuel [['a', 'a', 'a']] [] [] = none := by
    simp [wordLoop, hc]
  unfold batch_response
  rw [hs, hw]

/-- C7 witness: the divergence at a concrete fuel value. -/
theorem C7_batch_response_diverges_witness :
    batch_response 50 "aaa".data 2 = none :=
  C7_batch_response_diverges 50

end ChatBot
